import Mathlib

/-!
# Selfiecam: a shallow embedding of `src/main.js`

The module-level `state` object, the filter catalog, the per-frame `render`
function and the capture handlers of `src/main.js` are embedded as pure Lean
functions over an explicit `State` record.

Conventions of the embedding:

* JavaScript numbers are taken as exact rationals (`ℚ`); the model therefore says
  nothing about floating-point rounding, and a division by zero (a video that
  reports height 0) is outside every statement below.
* A handler that throws keeps the assignments it made before the throw; such a
  handler returns a `Result` holding the state at the throw and the error.
* `async` handlers are run to completion as one step.
* Browser objects (`CanvasRenderingContext2D`, `MediaRecorder`, `MediaStream`) are
  modelled by the few fields the source reads or writes.
* DOM chrome (class lists, the gallery grid, the preview thumbnail) is not modelled.
-/

namespace Selfiecam

/-! ## Cover-fit (`render`, lines 134-151) -/

/-- The four locals `startX`, `startY`, `drawW`, `drawH` of `render`. -/
structure CoverFit where
  startX : ℚ
  startY : ℚ
  drawW : ℚ
  drawH : ℚ
  deriving DecidableEq

/-- Lines 134-151 of `render`: the rectangle at which the video is drawn. -/
def coverFit (vW vH width height : ℚ) : CoverFit :=
  let vRatio := vW / vH
  let cRatio := width / height
  if vRatio > cRatio then
    let drawH := height
    let drawW := height * vRatio
    { drawW := drawW, drawH := drawH, startX := (width - drawW) / 2, startY := 0 }
  else
    let drawW := width
    let drawH := width / vRatio
    { drawW := drawW, drawH := drawH, startX := 0, startY := (height - drawH) / 2 }

/-! ## The 2D context (`state.ctx`) -/

/-- The current transformation matrix, restricted to what `translate` and `scale`
can produce from the identity: a point `(x, y)` of user space lands at
`(sx * x + tx, sy * y + ty)` on the surface. -/
structure Transform where
  sx : ℚ
  tx : ℚ
  sy : ℚ
  ty : ℚ
  deriving DecidableEq

/-- The identity matrix of a fresh context. -/
def Transform.identity : Transform := { sx := 1, tx := 0, sy := 1, ty := 0 }

/-- Canvas `translate(dx, dy)`: the matrix is multiplied on the right. -/
def Transform.translate (t : Transform) (dx dy : ℚ) : Transform :=
  { t with tx := t.tx + t.sx * dx, ty := t.ty + t.sy * dy }

/-- Canvas `scale(kx, ky)`: the matrix is multiplied on the right. -/
def Transform.scale (t : Transform) (kx ky : ℚ) : Transform :=
  { t with sx := t.sx * kx, sy := t.sy * ky }

/-- Surface abscissa of the user-space abscissa `x`. -/
def Transform.applyX (t : Transform) (x : ℚ) : ℚ := t.sx * x + t.tx

/-- Surface ordinate of the user-space ordinate `y`. -/
def Transform.applyY (t : Transform) (y : ℚ) : ℚ := t.sy * y + t.ty

/-- Values assigned to `ctx.fillStyle`. -/
inductive FillStyle
  | color (css : String)
  | radialGradient (x0 y0 r0 x1 y1 r1 : ℚ) (stops : List (ℚ × String))
  deriving DecidableEq

/-- The part of the drawing state that `save` pushes and `restore` pops. -/
structure DrawingState where
  transform : Transform
  filter : String
  fillStyle : FillStyle
  deriving DecidableEq

/-- A rectangle on the surface, by the images of two opposite corners of the
user-space rectangle: `(xa, ya)` is the image of `(x, y)` and `(xb, yb)` the image
of `(x + w, y + h)`. -/
structure SurfaceRect where
  xa : ℚ
  xb : ℚ
  ya : ℚ
  yb : ℚ
  deriving DecidableEq

/-- Left edge of the horizontal extent. -/
def SurfaceRect.left (r : SurfaceRect) : ℚ := min r.xa r.xb

/-- Right edge of the horizontal extent. -/
def SurfaceRect.right (r : SurfaceRect) : ℚ := max r.xa r.xb

/-- Top edge of the vertical extent. -/
def SurfaceRect.top (r : SurfaceRect) : ℚ := min r.ya r.yb

/-- Bottom edge of the vertical extent. -/
def SurfaceRect.bottom (r : SurfaceRect) : ℚ := max r.ya r.yb

/-- One painting call, recorded in surface coordinates together with the filter
that was in force. -/
inductive Painted
  | clearRect (r : SurfaceRect)
  | drawImage (r : SurfaceRect) (filter : String)
  | fillRect (r : SurfaceRect) (style : FillStyle) (filter : String)
  deriving DecidableEq

/-- The 2D context: current drawing state, the `save` stack, and the painting calls
issued so far (oldest first). -/
structure Ctx where
  cur : DrawingState
  saved : List DrawingState
  painted : List Painted
  deriving DecidableEq

/-- The context returned by `getContext`. -/
def Ctx.fresh : Ctx :=
  { cur := { transform := Transform.identity, filter := "none", fillStyle := .color "#000000" },
    saved := [], painted := [] }

/-- Image under the current matrix of the user-space rectangle `(x, y, w, h)`. -/
def Ctx.toSurface (c : Ctx) (x y w h : ℚ) : SurfaceRect :=
  { xa := c.cur.transform.applyX x, xb := c.cur.transform.applyX (x + w),
    ya := c.cur.transform.applyY y, yb := c.cur.transform.applyY (y + h) }

/-- Canvas `clearRect`. -/
def Ctx.clearRect (c : Ctx) (x y w h : ℚ) : Ctx :=
  { c with painted := c.painted ++ [.clearRect (c.toSurface x y w h)] }

/-- Assignment to `ctx.filter`. -/
def Ctx.setFilter (c : Ctx) (f : String) : Ctx :=
  { c with cur := { c.cur with filter := f } }

/-- Assignment to `ctx.fillStyle`. -/
def Ctx.setFillStyle (c : Ctx) (f : FillStyle) : Ctx :=
  { c with cur := { c.cur with fillStyle := f } }

/-- Canvas `save`. -/
def Ctx.save (c : Ctx) : Ctx := { c with saved := c.cur :: c.saved }

/-- Canvas `restore`: nothing happens on an empty stack. -/
def Ctx.restore (c : Ctx) : Ctx :=
  match c.saved with
  | [] => c
  | d :: rest => { c with cur := d, saved := rest }

/-- Canvas `translate`. -/
def Ctx.translate (c : Ctx) (dx dy : ℚ) : Ctx :=
  { c with cur := { c.cur with transform := c.cur.transform.translate dx dy } }

/-- Canvas `scale`. -/
def Ctx.scale (c : Ctx) (kx ky : ℚ) : Ctx :=
  { c with cur := { c.cur with transform := c.cur.transform.scale kx ky } }

/-- Canvas `drawImage(video, x, y, w, h)`. -/
def Ctx.drawImage (c : Ctx) (x y w h : ℚ) : Ctx :=
  { c with painted := c.painted ++ [.drawImage (c.toSurface x y w h) c.cur.filter] }

/-- Canvas `fillRect`. -/
def Ctx.fillRect (c : Ctx) (x y w h : ℚ) : Ctx :=
  { c with painted := c.painted ++ [.fillRect (c.toSurface x y w h) c.cur.fillStyle c.cur.filter] }

/-! ## The filter catalog (lines 22-31) -/

/-- Values of the optional `overlay` property. -/
inductive OverlayKind
  | vignette
  | bloom
  deriving DecidableEq

/-- One entry of `filters`; an absent `overlay` property is `none`. -/
structure FilterPreset where
  name : String
  filter : String
  overlay : Option OverlayKind
  deriving DecidableEq

/-- The `filters` array. -/
def filters : List FilterPreset :=
  [ { name := "Normal", filter := "none", overlay := none },
    { name := "Retro", filter := "sepia(0.4) contrast(1.2) brightness(0.9) saturate(0.8)",
      overlay := some .vignette },
    { name := "B&W", filter := "grayscale(1) contrast(1.1)", overlay := none },
    { name := "Warm", filter := "sepia(0.3) saturate(1.4) hue-rotate(-15deg)", overlay := none },
    { name := "Cool", filter := "saturate(1.2) hue-rotate(15deg) brightness(1.1)",
      overlay := none },
    { name := "Soft", filter := "brightness(1.1) contrast(0.9) saturate(0.9) blur(0.5px)",
      overlay := none },
    { name := "Dreamy", filter := "contrast(0.9) brightness(1.2) saturate(1.5)",
      overlay := some .bloom },
    { name := "Cyber", filter := "contrast(1.3) saturate(1.5) hue-rotate(180deg)",
      overlay := none } ]

/-! ## The session state (lines 5-19) -/

/-- Values of `state.mode`. -/
inductive Mode
  | photo
  | video
  deriving DecidableEq

/-- Values of `state.facingMode`. -/
inductive FacingMode
  | user
  | environment
  deriving DecidableEq

/-- A `Blob`: its bytes and its MIME type; `size` is the number of bytes. -/
structure Blob where
  bytes : List Nat
  mime : String
  deriving DecidableEq

/-- The `size` property of a blob. -/
def Blob.size (b : Blob) : Nat := b.bytes.length

/-- The constructor `new Blob(parts, { type })`: the parts concatenated in order. -/
def Blob.ofParts (parts : List Blob) (mime : String) : Blob :=
  { bytes := (parts.map Blob.bytes).flatten, mime := mime }

/-- The strings stored in a gallery entry's `url`. -/
inductive Url
  | emptyData
  | imageData (mime : String) (quality : ℚ) (width height : ℚ)
  | objectUrl (blob : Blob)
  deriving DecidableEq

/-- Values of a gallery entry's `type`. -/
inductive ItemType
  | image
  | video
  deriving DecidableEq

/-- A gallery entry `{ type, url, date }`. -/
structure GalleryItem where
  type : ItemType
  url : Url
  date : Nat
  deriving DecidableEq

/-- The `<video>` element: the three properties `render` reads. -/
structure VideoEl where
  readyState : Nat
  videoWidth : ℚ
  videoHeight : ℚ
  deriving DecidableEq

/-- The `<canvas>` element: its own `width` and `height` attributes. -/
structure CanvasEl where
  width : ℚ
  height : ℚ
  deriving DecidableEq

/-- Canvas `toDataURL(type, quality)`: a bitmap with no pixels serialises to the
string `data:,`, any other bitmap to a data URL of the encoded image. -/
def CanvasEl.toDataURL (c : CanvasEl) (mime : String) (quality : ℚ) : Url :=
  if c.width = 0 ∨ c.height = 0 then .emptyData
  else .imageData mime quality c.width c.height

/-- A `MediaStream` as far as the source looks at it: its audio tracks and whether
its tracks have been stopped. -/
structure MediaStream where
  audioTracks : List Nat
  stopped : Bool
  deriving DecidableEq

/-- The `state` attribute of a `MediaRecorder`, as far as the source drives it. -/
inductive RecorderState
  | inactive
  | recording
  deriving DecidableEq

/-- A `MediaRecorder`: the options it was built with, the audio track added to the
canvas stream, its `state`, and whether a `stop` event is queued for it. -/
structure MediaRecorder where
  mimeType : String
  audioTrack : Option Nat
  state : RecorderState
  stopQueued : Bool
  deriving DecidableEq

/-- Recorder `start()` on a recorder that is inactive. -/
def MediaRecorder.start (r : MediaRecorder) : MediaRecorder :=
  { r with state := .recording }

/-- Recorder `stop()`: on an inactive recorder the call returns at once; otherwise the
recorder becomes inactive and its `stop` event is queued. -/
def MediaRecorder.stop (r : MediaRecorder) : MediaRecorder :=
  match r.state with
  | .inactive => r
  | .recording => { r with state := .inactive, stopQueued := true }

/-- The `state` object, after `init` has bound `canvasEl` and `ctx` (lines 54-55,
before any handler is registered). -/
structure State where
  stream : Option MediaStream
  videoEl : Option VideoEl
  canvasEl : CanvasEl
  ctx : Ctx
  isRecording : Bool
  mode : Mode
  mediaRecorder : Option MediaRecorder
  recordedChunks : List Blob
  currentFilterIndex : Nat
  gallery : List GalleryItem
  facingMode : FacingMode
  width : ℚ
  height : ℚ
  deriving DecidableEq

/-- Errors a handler can end with. -/
inductive JsError
  | typeError
  deriving DecidableEq

/-- Outcome of a handler: the state it leaves and the error it threw, if any. -/
structure Result where
  state : State
  thrown : Option JsError
  deriving DecidableEq

/-- A handler that returned normally. -/
def Result.ok (s : State) : Result := { state := s, thrown := none }

/-- A handler that threw after bringing the state to `s`. -/
def Result.throw (s : State) (e : JsError) : Result := { state := s, thrown := some e }

/-! ## Camera handling and resize (lines 72-118) -/

/-- What the browser answers during one run of `startCamera`: the stream that
`getUserMedia` resolves with (`none` when it rejects), whether `videoEl.play()`
resolves, and the window size read by `handleResize`. -/
structure CameraEnv where
  acquired : Option MediaStream
  playOk : Bool
  innerWidth : ℚ
  innerHeight : ℚ
  deriving DecidableEq

/-- The function `handleResize`: copies the window size into `state.width`,
`state.height` and the canvas attributes. Assigning a canvas attribute resets the
context's drawing state. -/
def handleResize (s : State) (innerWidth innerHeight : ℚ) : State :=
  { s with
    width := innerWidth
    height := innerHeight
    canvasEl := { width := innerWidth, height := innerHeight }
    ctx := { cur := Ctx.fresh.cur, saved := [], painted := s.ctx.painted } }

/-- The function `startCamera`: stops the tracks of the stream held so far, then
tries to acquire a new one; every failure inside the `try` block is caught, and the
assignments made before it stay. -/
def startCamera (s : State) (env : CameraEnv) : State :=
  let s := { s with stream := s.stream.map (fun m => { m with stopped := true }) }
  match env.acquired with
  | none => s
  | some m =>
    let s := { s with stream := some m }
    match s.videoEl with
    | none => s
    | some _ => if env.playOk then handleResize s env.innerWidth env.innerHeight else s

/-! ## Rendering (lines 121-206) -/

/-- The function `render`, one tick of the frame loop. -/
def render (s : State) : Result :=
  match s.videoEl with
  | none => .ok s
  | some videoEl =>
    if videoEl.readyState ≥ 2 then
      let ctx := s.ctx
      let width := s.width
      let height := s.height
      let ctx := ctx.clearRect 0 0 width height
      match filters[s.currentFilterIndex]? with
      | none => .throw { s with ctx := ctx } .typeError
      | some activeFilter =>
        let ctx := ctx.setFilter activeFilter.filter
        let c := coverFit videoEl.videoWidth videoEl.videoHeight width height
        let ctx :=
          if s.facingMode = .user then
            (((ctx.save).translate width 0).scale (-1) 1).drawImage
              (c.startX * -1 - c.drawW) c.startY c.drawW c.drawH
          else
            ctx.drawImage c.startX c.startY c.drawW c.drawH
        let ctx := if s.facingMode = .user then ctx.restore else ctx
        let ctx :=
          if activeFilter.overlay = some .vignette then
            let grad := FillStyle.radialGradient (width / 2) (height / 2) (height / 3)
              (width / 2) (height / 2) height [(0, "rgba(0,0,0,0)"), (1, "rgba(0,0,0,0.6)")]
            ((ctx.setFillStyle grad).setFilter "none").fillRect 0 0 width height
          else ctx
        .ok { s with ctx := ctx }
    else .ok s

/-! ## Capture and gallery (lines 228-307) -/

/-- The function `setMode`. -/
def setMode (s : State) (mode : Mode) : State := { s with mode := mode }

/-- The function `addToGallery`; `now` is the value of `new Date()`. -/
def addToGallery (s : State) (type : ItemType) (url : Url) (now : Nat) : State :=
  { s with gallery := { type := type, url := url, date := now } :: s.gallery }

/-- The function `takePhoto`. -/
def takePhoto (s : State) (now : Nat) : State :=
  let canvas := s.canvasEl
  let dataUrl := canvas.toDataURL "image/jpeg" (95 / 100)
  addToGallery s .image dataUrl now

/-- The handler assigned to `mediaRecorder.ondataavailable`. -/
def ondataavailable (s : State) (data : Blob) : State :=
  if data.size > 0 then { s with recordedChunks := s.recordedChunks ++ [data] } else s

/-- The handler assigned to `mediaRecorder.onstop`. -/
def onstop (s : State) (now : Nat) : State :=
  let blob := Blob.ofParts s.recordedChunks "video/webm"
  let url := Url.objectUrl blob
  addToGallery s .video url now

/-- The function `startRecording`; `vp9` is the answer of
`MediaRecorder.isTypeSupported('video/webm;codecs=vp9')`. The recorder constructor
and `start()` are taken to succeed. -/
def startRecording (s : State) (vp9 : Bool) : Result :=
  let s := { s with isRecording := true, recordedChunks := [] }
  match s.stream with
  | none => .throw s .typeError
  | some stream =>
    let audioTrack := if stream.audioTracks.length > 0 then stream.audioTracks[0]? else none
    let mimeType := if vp9 then "video/webm;codecs=vp9" else "video/webm"
    let recorder : MediaRecorder :=
      { mimeType := mimeType, audioTrack := audioTrack, state := .inactive, stopQueued := false }
    .ok { s with mediaRecorder := some recorder.start }

/-- The function `stopRecording`. -/
def stopRecording (s : State) : Result :=
  let s := { s with isRecording := false }
  match s.mediaRecorder with
  | none => .throw s .typeError
  | some recorder => .ok { s with mediaRecorder := some recorder.stop }

/-- The function `toggleRecording`. -/
def toggleRecording (s : State) (vp9 : Bool) : Result :=
  if s.isRecording then stopRecording s else startRecording s vp9

/-- The function `handleShutter`. -/
def handleShutter (s : State) (vp9 : Bool) (now : Nat) : Result :=
  if s.mode = .photo then .ok (takePhoto s now) else toggleRecording s vp9

/-! ## The filter list (lines 327-362) -/

/-- The function `renderFilterList`: one item per catalog entry, in catalog order;
each item is represented by its `onclick` handler, which captures the index `i`. -/
def renderFilterList : List (State → State) :=
  filters.enum.map (fun p => fun s => { s with currentFilterIndex := p.1 })

/-! ## Events -/

/-- The events that drive the session: clicks on the controls registered by
`setupControls` and `renderFilterList`, the window `resize` event, the two recorder
events and the animation frame. -/
inductive Action
  | filterClick (item : Nat)
  | modeClick (mode : Mode)
  | shutterClick (vp9 : Bool) (now : Nat)
  | toggleCameraClick (env : CameraEnv)
  | resize (innerWidth innerHeight : ℚ)
  | dataavailable (data : Blob)
  | recorderStop (now : Nat)
  | frame (video : VideoEl)

/-- Click on the `item`-th filter item; there is nothing to click past the last one. -/
def filterClick (s : State) (item : Nat) : State :=
  match renderFilterList[item]? with
  | some onclick => onclick s
  | none => s

/-- The click handler of the camera toggle button (lines 218-221). -/
def toggleCameraClick (s : State) (env : CameraEnv) : State :=
  let s := { s with
    facingMode := if s.facingMode = .user then .environment else .user }
  startCamera s env

/-- Delivery of a `dataavailable` event to the recorder held in `state.mediaRecorder`. -/
def dataavailableEvent (s : State) (data : Blob) : State :=
  match s.mediaRecorder with
  | some _ => ondataavailable s data
  | none => s

/-- Delivery of the queued `stop` event of the recorder held in
`state.mediaRecorder`; it fires once per `stop()` that found the recorder recording. -/
def recorderStopEvent (s : State) (now : Nat) : State :=
  match s.mediaRecorder with
  | some recorder =>
    if recorder.stopQueued then
      onstop { s with mediaRecorder := some { recorder with stopQueued := false } } now
    else s
  | none => s

/-- An animation frame: the video element shows `video`, then `render` runs. -/
def frameEvent (s : State) (video : VideoEl) : State :=
  (render { s with videoEl := s.videoEl.map (fun _ => video) }).state

/-- One event. A handler that throws leaves the state it had reached. -/
def step (s : State) : Action → State
  | .filterClick item => filterClick s item
  | .modeClick mode => setMode s mode
  | .shutterClick vp9 now => (handleShutter s vp9 now).state
  | .toggleCameraClick env => toggleCameraClick s env
  | .resize innerWidth innerHeight => handleResize s innerWidth innerHeight
  | .dataavailable data => dataavailableEvent s data
  | .recorderStop now => recorderStopEvent s now
  | .frame video => frameEvent s video

/-- A sequence of events, oldest first. -/
def run (s : State) (actions : List Action) : State := actions.foldl step s

/-- The `state` literal of lines 5-19 with the elements bound by lines 53-55: `video`
and `canvas` are the elements found in the page. -/
def state0 (video : Option VideoEl) (canvas : CanvasEl) : State :=
  { stream := none
    videoEl := video
    canvasEl := canvas
    ctx := Ctx.fresh
    isRecording := false
    mode := .photo
    mediaRecorder := none
    recordedChunks := []
    currentFilterIndex := 0
    gallery := []
    facingMode := .user
    width := 0
    height := 0 }

/-- The function `init`: the state once the first `startCamera` has settled. -/
def init (video : Option VideoEl) (canvas : CanvasEl) (env : CameraEnv) : State :=
  startCamera (state0 video canvas) env

/-! ## Concrete pages used in the evaluations -/

/-- A video element that has decoded a 1280 x 720 frame. -/
def readyVideo : VideoEl := { readyState := 4, videoWidth := 1280, videoHeight := 720 }

/-- The browser grants a stream with one audio track; the window is 1920 x 1080. -/
def grantedEnv : CameraEnv :=
  { acquired := some { audioTracks := [1], stopped := false }, playOk := true,
    innerWidth := 1920, innerHeight := 1080 }

/-- The browser refuses the camera. -/
def deniedEnv : CameraEnv :=
  { acquired := none, playOk := false, innerWidth := 1920, innerHeight := 1080 }

/-- The page after `init` with the camera granted: front camera, 1920 x 1080 surface. -/
def frontPage : State := init (some readyVideo) { width := 300, height := 150 } grantedEnv

/-- The same page after one click on the camera toggle: rear camera. -/
def rearPage : State := step frontPage (.toggleCameraClick grantedEnv)

/-- A video element that has no source yet. -/
def blankVideo : VideoEl := { readyState := 0, videoWidth := 0, videoHeight := 0 }

/-- The page after `init` with the camera refused. -/
def deniedPage : State := init (some blankVideo) { width := 300, height := 150 } deniedEnv

/-- The rear-camera page with the preset Dreamy (index 6) selected. -/
def dreamyPage : State := step rearPage (.filterClick 6)

/-- The rear-camera page with the preset Retro (index 1) selected. -/
def retroPage : State := step rearPage (.filterClick 1)

/-! ## Theorems -/

/-- C1: for positive source and surface sizes the cover-fit rectangle is at least as
large as the surface in both directions and is centred, with equal slack on the two
sides of each axis. -/
theorem coverFit_covers_centred (vW vH width height : ℚ)
    (hvW : 0 < vW) (hvH : 0 < vH) (_hw : 0 < width) (hh : 0 < height) :
    (coverFit vW vH width height).drawW ≥ width ∧
    (coverFit vW vH width height).drawH ≥ height ∧
    (coverFit vW vH width height).startX ≤ 0 ∧
    0 ≤ (coverFit vW vH width height).startX + (coverFit vW vH width height).drawW - width ∧
    (coverFit vW vH width height).startX =
      -((coverFit vW vH width height).startX + (coverFit vW vH width height).drawW - width) ∧
    (coverFit vW vH width height).startY ≤ 0 ∧
    0 ≤ (coverFit vW vH width height).startY + (coverFit vW vH width height).drawH - height ∧
    (coverFit vW vH width height).startY =
      -((coverFit vW vH width height).startY + (coverFit vW vH width height).drawH - height) := by
  generalize hc0 : coverFit vW vH width height = c
  by_cases hr : vW / vH > width / height
  · have hc : c = { drawW := height * (vW / vH), drawH := height,
                    startX := (width - height * (vW / vH)) / 2, startY := 0 } := by
      simp only [← hc0, coverFit, hr, if_true]
    have hlt : width < height * (vW / vH) := by
      have := mul_lt_mul_of_pos_left hr hh
      rwa [mul_div_cancel₀ _ (ne_of_gt hh)] at this
    rw [hc]
    refine ⟨le_of_lt hlt, le_refl _, ?_, ?_, ?_, le_refl _, ?_, ?_⟩ <;> simp only <;>
      linarith
  · have hc : c = { drawW := width, drawH := width / (vW / vH),
                    startX := 0, startY := (height - width / (vW / vH)) / 2 } := by
      simp only [← hc0, coverFit, hr, if_false]
    have hle : vW / vH ≤ width / height := not_lt.mp hr
    have hpos : 0 < vW / vH := div_pos hvW hvH
    have hge : height ≤ width / (vW / vH) := by
      rw [le_div_iff₀ hpos]
      have := mul_le_mul_of_nonneg_left hle (le_of_lt hh)
      rwa [mul_div_cancel₀ _ (ne_of_gt hh)] at this
    rw [hc]
    refine ⟨le_refl _, hge, le_refl _, ?_, ?_, ?_, ?_, ?_⟩ <;> simp only <;>
      linarith

/-- Witness of C1 at a 1920 x 1080 source on a 1000 x 1000 surface. -/
theorem coverFit_covers_centred_witness :
    (coverFit 1920 1080 1000 1000).drawW ≥ 1000 ∧
    (coverFit 1920 1080 1000 1000).drawH ≥ 1000 ∧
    (coverFit 1920 1080 1000 1000).startX ≤ 0 ∧
    0 ≤ (coverFit 1920 1080 1000 1000).startX + (coverFit 1920 1080 1000 1000).drawW - 1000 ∧
    (coverFit 1920 1080 1000 1000).startX =
      -((coverFit 1920 1080 1000 1000).startX + (coverFit 1920 1080 1000 1000).drawW - 1000) ∧
    (coverFit 1920 1080 1000 1000).startY ≤ 0 ∧
    0 ≤ (coverFit 1920 1080 1000 1000).startY + (coverFit 1920 1080 1000 1000).drawH - 1000 ∧
    (coverFit 1920 1080 1000 1000).startY =
      -((coverFit 1920 1080 1000 1000).startY + (coverFit 1920 1080 1000 1000).drawH - 1000) :=
  coverFit_covers_centred 1920 1080 1000 1000 (by norm_num) (by norm_num)
    (by norm_num) (by norm_num)

/-- C9 as stated fails: on a 1000 x 1000 surface with a 1920 x 1080 source the
computed width is not 1780 and the computed offset is not -390. -/
theorem coverFit_scenario_not_1780 :
    ¬ ((coverFit 1920 1080 1000 1000).drawH = 1000 ∧
       (coverFit 1920 1080 1000 1000).drawW = 1780 ∧
       (coverFit 1920 1080 1000 1000).startX = -390 ∧
       (coverFit 1920 1080 1000 1000).startY = 0) := by
  have hr : ((1920 : ℚ) / 1080 > 1000 / 1000) := by norm_num
  simp only [coverFit, hr, if_true]
  norm_num

/-- C9 amended: on a 1000 x 1000 surface with a 1920 x 1080 source the wider-source
branch is taken and the rectangle is drawH = 1000, drawW = 16000/9, startX = -3500/9,
startY = 0. -/
theorem coverFit_scenario_exact :
    ((1920 : ℚ) / 1080 > 1000 / 1000) ∧
    coverFit 1920 1080 1000 1000 =
      { drawH := 1000, drawW := 16000 / 9, startX := -3500 / 9, startY := 0 } := by
  have hr : ((1920 : ℚ) / 1080 > 1000 / 1000) := by norm_num
  refine ⟨hr, ?_⟩
  simp only [coverFit, hr, if_true]
  norm_num

/-! ### Gallery -/

/-- C3: starting from an empty gallery, after the artifacts of `items` have been added
in order by successive `addToGallery` calls, the gallery has as many entries as calls
were made and lists them newest first; each call puts the new artifact at index 0 and
moves every earlier entry one position later. -/
theorem gallery_newest_first (s : State) (items : List GalleryItem) (h : s.gallery = []) :
    let add := fun (st : State) (a : GalleryItem) => addToGallery st a.type a.url a.date
    (items.foldl add s).gallery = items.reverse ∧
    (items.foldl add s).gallery.length = items.length ∧
    ∀ (st : State) (a : GalleryItem),
      (add st a).gallery[0]? = some a ∧
      (add st a).gallery.length = st.gallery.length + 1 ∧
      ∀ j : Nat, (add st a).gallery[j + 1]? = st.gallery[j]? := by
  intro add
  have key : ∀ (l : List GalleryItem) (st : State),
      (l.foldl add st).gallery = l.reverse ++ st.gallery := by
    intro l
    induction l with
    | nil => intro st; simp
    | cons a l ih =>
      intro st
      rw [List.foldl_cons, ih]
      simp [add, addToGallery]
  refine ⟨?_, ?_, ?_⟩
  · rw [key, h, List.append_nil]
  · rw [key, h, List.append_nil, List.length_reverse]
  · intro st a
    simp [add, addToGallery]

/-- Witness of C3: a photo then a clip added to the empty gallery of a fresh page. -/
theorem gallery_newest_first_witness :
    let s := state0 none { width := 300, height := 150 }
    let a1 : GalleryItem := { type := .image, url := .emptyData, date := 1 }
    let a2 : GalleryItem := { type := .video, url := .emptyData, date := 2 }
    let add := fun (st : State) (a : GalleryItem) => addToGallery st a.type a.url a.date
    ([a1, a2].foldl add s).gallery = [a2, a1] :=
  (gallery_newest_first (state0 none { width := 300, height := 150 })
    [{ type := .image, url := .emptyData, date := 1 },
     { type := .video, url := .emptyData, date := 2 }] rfl).1

/-! ### Still capture -/

/-- C6 as stated fails: on a page whose surface has zero width and zero height, before
any resize or frame, `takePhoto` adds an entry to the gallery. -/
theorem takePhoto_empty_surface_adds :
    let s := state0 none { width := 0, height := 0 }
    s.width = 0 ∧ s.height = 0 ∧ s.canvasEl.width = 0 ∧ s.canvasEl.height = 0 ∧
    (takePhoto s 7).gallery ≠ s.gallery ∧
    (takePhoto s 7).gallery.length = s.gallery.length + 1 := by
  simp [state0, takePhoto, addToGallery]

/-- C6 amended: `takePhoto` has no empty-surface check; for every state it prepends
exactly one entry of type image, whose url is the string `data:,` when the canvas has
zero width or zero height and a JPEG data URL of quality 0.95 otherwise, and the shutter
in photo mode ends without an error. -/
theorem takePhoto_always_adds (s : State) (vp9 : Bool) (now : Nat) :
    (takePhoto s now).gallery =
      { type := .image,
        url := if s.canvasEl.width = 0 ∨ s.canvasEl.height = 0 then .emptyData
               else .imageData "image/jpeg" (95 / 100) s.canvasEl.width s.canvasEl.height,
        date := now } :: s.gallery ∧
    handleShutter { s with mode := .photo } vp9 now =
      .ok (takePhoto { s with mode := .photo } now) := by
  constructor
  · simp only [takePhoto, addToGallery, CanvasEl.toDataURL]
  · simp [handleShutter]

/-! ### Filter selection -/

/-- The handler of the `k`-th filter item stores `k`, and there are eight items. -/
theorem renderFilterList_getElem? (k : Nat) :
    renderFilterList[k]? =
      if k < 8 then some (fun s => { s with currentFilterIndex := k }) else none := by
  unfold renderFilterList
  by_cases hk : k < 8
  · rw [if_pos hk]
    interval_cases k <;> rfl
  · rw [if_neg hk]
    apply List.getElem?_eq_none
    simp [filters]
    omega

/-- No event other than a click on a filter item writes `currentFilterIndex`, and a
click on an item writes the index of that item. -/
theorem step_currentFilterIndex (s : State) (a : Action) :
    (step s a).currentFilterIndex = s.currentFilterIndex ∨
    ∃ k, k < 8 ∧ a = .filterClick k ∧ (step s a).currentFilterIndex = k := by
  cases a with
  | filterClick item =>
    by_cases hk : item < 8
    · right
      refine ⟨item, hk, rfl, ?_⟩
      simp [step, filterClick, renderFilterList_getElem?, hk]
    · left
      simp [step, filterClick, renderFilterList_getElem?, hk]
  | modeClick mode => left; rfl
  | shutterClick vp9 now =>
    left
    simp only [step, handleShutter, toggleRecording, takePhoto, addToGallery,
      startRecording, stopRecording, Result.ok, Result.throw]
    split
    · rfl
    · split
      · split <;> rfl
      · split <;> rfl
  | toggleCameraClick env =>
    left
    simp only [step, toggleCameraClick, startCamera, handleResize]
    split
    · rfl
    · split
      · rfl
      · split <;> rfl
  | resize w h => left; rfl
  | dataavailable data =>
    left
    simp only [step, dataavailableEvent, ondataavailable]
    split
    · split <;> rfl
    · rfl
  | recorderStop now =>
    left
    simp only [step, recorderStopEvent, onstop, addToGallery]
    split
    · split <;> rfl
    · rfl
  | frame video =>
    left
    simp only [step, frameEvent, render, Result.ok, Result.throw]
    split
    · rfl
    · split
      · split <;> rfl
      · rfl

/-- C7: in every state reached from the initial state by any sequence of events, the
active filter index is below the catalog length 8, so the lookup in `render` finds a
preset; and a click on the item built for index `i` sets the index to `i`. -/
theorem filter_index_valid (video : Option VideoEl) (canvas : CanvasEl) (env : CameraEnv)
    (actions : List Action) :
    let s := run (init video canvas env) actions
    filters.length = 8 ∧
    s.currentFilterIndex < filters.length ∧
    (filters[s.currentFilterIndex]?).isSome = true ∧
    ∀ i : Fin filters.length, (step s (.filterClick i.val)).currentFilterIndex = i.val := by
  intro s
  have hlen : filters.length = 8 := rfl
  have hinit : (init video canvas env).currentFilterIndex < 8 := by
    simp only [init, startCamera, handleResize, state0]
    split
    · simp
    · split
      · simp
      · split <;> simp
  have hrun : ∀ (l : List Action) (st : State),
      st.currentFilterIndex < 8 → (run st l).currentFilterIndex < 8 := by
    intro l
    induction l with
    | nil => intro st h; exact h
    | cons a l ih =>
      intro st h
      apply ih
      rcases step_currentFilterIndex st a with h1 | ⟨k, hk, _, h2⟩
      · rw [h1]; exact h
      · rw [h2]; exact hk
  have hs : s.currentFilterIndex < 8 := hrun actions _ hinit
  refine ⟨hlen, by rw [hlen]; exact hs, ?_, ?_⟩
  · rw [List.getElem?_eq_getElem (by rw [hlen]; exact hs)]
    rfl
  · intro i
    have hi : i.val < 8 := lt_of_lt_of_eq i.isLt hlen
    simp [step, filterClick, renderFilterList_getElem?, hi]

/-! ### Recording -/

/-- While a recorder is held, a run of `dataavailable` events appends the non-empty
chunks, in arrival order, and changes nothing else. -/
theorem foldl_dataavailableEvent (datas : List Blob) (s : State) (r : MediaRecorder)
    (h : s.mediaRecorder = some r) :
    datas.foldl dataavailableEvent s =
      { s with recordedChunks :=
          s.recordedChunks ++ datas.filter (fun b => decide (b.size > 0)) } := by
  induction datas generalizing s with
  | nil => simp
  | cons d datas ih =>
    rw [List.foldl_cons]
    by_cases hd : d.size > 0
    · have h1 : dataavailableEvent s d = { s with recordedChunks := s.recordedChunks ++ [d] } := by
        simp [dataavailableEvent, ondataavailable, h, hd]
      rw [h1, ih { s with recordedChunks := s.recordedChunks ++ [d] } h]
      simp [List.filter_cons, hd]
    · have h1 : dataavailableEvent s d = s := by
        simp [dataavailableEvent, ondataavailable, h, hd]
      rw [h1, ih _ h]
      simp [List.filter_cons, hd]

/-- C5: from an idle state with gallery `g` and a stream, `startRecording`, any chunks,
`stopRecording`, any further chunks, then the recorder's `stop` event: no call throws,
`isRecording` ends false, and the gallery is one new video entry, built from the
non-empty chunks in arrival order, followed by `g`; a second delivery of the `stop`
event adds nothing. -/
theorem one_clip_per_cycle (s : State) (stream : MediaStream) (vp9 : Bool)
    (before after : List Blob) (now later : Nat)
    (_hidle : s.isRecording = false) (hstream : s.stream = some stream) :
    let started := startRecording s vp9
    let fed := before.foldl dataavailableEvent started.state
    let stopped := stopRecording fed
    let drained := after.foldl dataavailableEvent stopped.state
    let final := recorderStopEvent drained now
    started.thrown = none ∧ started.state.isRecording = true ∧
    stopped.thrown = none ∧ stopped.state.isRecording = false ∧
    final.isRecording = false ∧
    final.gallery =
      { type := .video,
        url := .objectUrl (Blob.ofParts
          ((before ++ after).filter (fun b => decide (b.size > 0))) "video/webm"),
        date := now } :: s.gallery ∧
    recorderStopEvent final later = final := by
  intro started fed stopped drained final
  have hstarted : started = .ok { s with
      isRecording := true, recordedChunks := [],
      mediaRecorder := some
        { mimeType := if vp9 then "video/webm;codecs=vp9" else "video/webm",
          audioTrack := if stream.audioTracks.length > 0 then stream.audioTracks[0]? else none,
          state := .recording, stopQueued := false } } := by
    simp only [started, startRecording, hstream, MediaRecorder.start]
  have hfed : fed = { started.state with
      recordedChunks := before.filter (fun b => decide (b.size > 0)) } := by
    simp only [fed]
    rw [foldl_dataavailableEvent before started.state _ (by rw [hstarted]; rfl)]
    simp [hstarted, Result.ok]
  have hstopped : stopped = .ok { fed with
      isRecording := false,
      mediaRecorder := some
        { mimeType := if vp9 then "video/webm;codecs=vp9" else "video/webm",
          audioTrack := if stream.audioTracks.length > 0 then stream.audioTracks[0]? else none,
          state := .inactive, stopQueued := true } } := by
    simp only [stopped, stopRecording, hfed, hstarted, Result.ok, MediaRecorder.stop]
  have hdrained : drained = { stopped.state with
      recordedChunks := (before ++ after).filter (fun b => decide (b.size > 0)) } := by
    simp only [drained]
    rw [foldl_dataavailableEvent after stopped.state _ (by rw [hstopped]; rfl)]
    simp [hstopped, hfed, Result.ok, List.filter_append]
  have hfinal : final = { drained with
      mediaRecorder := some
        { mimeType := if vp9 then "video/webm;codecs=vp9" else "video/webm",
          audioTrack := if stream.audioTracks.length > 0 then stream.audioTracks[0]? else none,
          state := .inactive, stopQueued := false },
      gallery :=
        { type := .video,
          url := .objectUrl (Blob.ofParts
            ((before ++ after).filter (fun b => decide (b.size > 0))) "video/webm"),
          date := now } :: s.gallery } := by
    simp only [final, recorderStopEvent, hdrained, hstopped, hfed, hstarted, Result.ok,
      onstop, addToGallery]
    simp
  refine ⟨?_, ?_, ?_, ?_, ?_, ?_, ?_⟩
  · rw [hstarted]; rfl
  · rw [hstarted]; rfl
  · rw [hstopped]; rfl
  · rw [hstopped]; rfl
  · rw [hfinal, hdrained, hstopped]; rfl
  · rw [hfinal]
  · rw [hfinal]
    simp [recorderStopEvent]

/-- Witness of C5: a page with a stream, two chunks (one of them empty) before the
stop and one after it. -/
theorem one_clip_per_cycle_witness :
    let s : State := { state0 none { width := 300, height := 150 } with
      stream := some { audioTracks := [1], stopped := false }, mode := .video }
    let c1 : Blob := { bytes := [1, 2], mime := "video/webm" }
    let c0 : Blob := { bytes := [], mime := "video/webm" }
    let c2 : Blob := { bytes := [3], mime := "video/webm" }
    (recorderStopEvent
      ([c2].foldl dataavailableEvent
        (stopRecording
          ([c1, c0].foldl dataavailableEvent (startRecording s true).state)).state) 9).gallery =
      [{ type := .video,
         url := .objectUrl { bytes := [1, 2, 3], mime := "video/webm" },
         date := 9 }] :=
  (one_clip_per_cycle
    { state0 none { width := 300, height := 150 } with
      stream := some { audioTracks := [1], stopped := false }, mode := .video }
    { audioTracks := [1], stopped := false } true
    [{ bytes := [1, 2], mime := "video/webm" }, { bytes := [], mime := "video/webm" }]
    [{ bytes := [3], mime := "video/webm" }] 9 10 rfl rfl).2.2.2.2.2.1

/-- A state in the middle of a recording: one chunk accumulated, a recorder running. -/
def recordingState : State :=
  { state0 none { width := 300, height := 150 } with
    stream := some { audioTracks := [], stopped := false }
    mode := .video
    isRecording := true
    recordedChunks := [{ bytes := [1, 2], mime := "video/webm" }]
    mediaRecorder := some
      { mimeType := "video/webm", audioTrack := none, state := .recording, stopQueued := false } }

/-- C4 as stated fails: in a state with `isRecording` true, `startRecording` returns
without an error and the chunks accumulated so far are gone. -/
theorem startRecording_while_recording_succeeds :
    recordingState.isRecording = true ∧
    (startRecording recordingState false).thrown = none ∧
    (startRecording recordingState false).state.recordedChunks = [] ∧
    (startRecording recordingState false).state.recordedChunks ≠
      recordingState.recordedChunks := by
  simp [recordingState, state0, startRecording, Result.ok]

/-- C4 amended: `stopRecording` on an idle state whose recorder, if any, is inactive
leaves the whole state unchanged and, when no recorder is held, fails with a TypeError;
`startRecording` is not guarded: on a recording state with a stream it returns without
an error, keeps `isRecording` and the gallery, empties `recordedChunks` and installs a
new running recorder; `toggleRecording` calls `stopRecording` only when `isRecording`
is true and `startRecording` only when it is false. -/
theorem recording_transitions (idle rec : State) (stream : MediaStream) (vp9 : Bool)
    (hidle : idle.isRecording = false)
    (hinactive : ∀ r, idle.mediaRecorder = some r → r.state = .inactive)
    (hrec : rec.isRecording = true) (hstream : rec.stream = some stream) :
    (stopRecording idle).state = idle ∧
    (idle.mediaRecorder = none → (stopRecording idle).thrown = some .typeError) ∧
    (startRecording rec vp9).thrown = none ∧
    (startRecording rec vp9).state.isRecording = true ∧
    (startRecording rec vp9).state.gallery = rec.gallery ∧
    (startRecording rec vp9).state.recordedChunks = [] ∧
    (∃ r, (startRecording rec vp9).state.mediaRecorder = some r ∧
      r.state = .recording ∧ r.stopQueued = false) ∧
    toggleRecording idle vp9 = startRecording idle vp9 ∧
    toggleRecording rec vp9 = stopRecording rec := by
  refine ⟨?_, ?_, ?_, ?_, ?_, ?_, ?_, ?_, ?_⟩
  · cases hm : idle.mediaRecorder with
    | none =>
      simp only [stopRecording, hm, Result.throw]
      cases idle
      simp_all
    | some r =>
      have hr := hinactive r hm
      have hstop : r.stop = r := by simp [MediaRecorder.stop, hr]
      simp only [stopRecording, hm, Result.ok, hstop]
      cases idle
      simp_all
  · intro hm
    simp [stopRecording, hm, Result.throw]
  · simp [startRecording, hstream, Result.ok]
  · simp [startRecording, hstream, Result.ok]
  · simp [startRecording, hstream, Result.ok]
  · simp [startRecording, hstream, Result.ok]
  · simp [startRecording, hstream, Result.ok, MediaRecorder.start]
  · simp [toggleRecording, hidle]
  · simp [toggleRecording, hrec]

/-- Witness of C4 amended: the fresh page as the idle state and a state in the middle
of a recording as the recording one. -/
theorem recording_transitions_witness :
    (stopRecording (state0 none { width := 300, height := 150 })).state =
      state0 none { width := 300, height := 150 } ∧
    (startRecording recordingState true).state.recordedChunks = [] :=
  have h := recording_transitions (state0 none { width := 300, height := 150 })
    recordingState { audioTracks := [], stopped := false } true rfl
    (by intro r hr; simp [state0] at hr) rfl rfl
  ⟨h.1, h.2.2.2.2.2.1⟩

/-! ### Evaluations of `render` and of the shutter -/

/-- C2, evaluated: a ready 1280 x 720 front camera on a 1920 x 1080 surface. The
cover-fit rectangle is the whole surface, its mirror image about x = 960 is the whole
surface again, but the image is painted over the abscissas 1920 to 3840, to the right
of the surface; with the rear camera it is painted over 0 to 1920. -/
theorem render_mirrored_misses_surface :
    frontPage.facingMode = .user ∧
    coverFit 1280 720 1920 1080 = { startX := 0, startY := 0, drawW := 1920, drawH := 1080 } ∧
    (render frontPage).state.ctx.painted =
      [ .clearRect { xa := 0, xb := 1920, ya := 0, yb := 1080 },
        .drawImage { xa := 3840, xb := 1920, ya := 0, yb := 1080 } "none" ] ∧
    (render rearPage).state.ctx.painted =
      [ .clearRect { xa := 0, xb := 1920, ya := 0, yb := 1080 },
        .drawImage { xa := 0, xb := 1920, ya := 0, yb := 1080 } "none" ] := by
  refine ⟨rfl, ?_, ?_, ?_⟩
  · norm_num [coverFit]
  · simp [frontPage, init, startCamera, handleResize, state0, grantedEnv, readyVideo,
      render, coverFit, filters, Result.ok, Ctx.fresh, Ctx.clearRect, Ctx.setFilter, Ctx.save,
      Ctx.translate, Ctx.scale, Ctx.drawImage, Ctx.restore, Ctx.toSurface, Transform.identity,
      Transform.translate, Transform.scale, Transform.applyX, Transform.applyY]
    norm_num
  · simp [rearPage, step, toggleCameraClick, frontPage, init, startCamera, handleResize,
      state0, grantedEnv, readyVideo,
      render, coverFit, filters, Result.ok, Ctx.fresh, Ctx.clearRect, Ctx.setFilter, Ctx.save,
      Ctx.translate, Ctx.scale, Ctx.drawImage, Ctx.restore, Ctx.toSurface, Transform.identity,
      Transform.translate, Transform.scale, Transform.applyX, Transform.applyY]
    norm_num

/-- The painting calls of one `render` on a ready frame, for every state: the clear,
the image (shifted by the surface width when the front camera is mirrored), and a
full-surface fill with the filter off exactly when the preset's overlay is the
vignette. -/
theorem render_painted (s : State) (v : VideoEl) (f : FilterPreset)
    (hv : s.videoEl = some v) (hr : v.readyState ≥ 2)
    (hf : filters[s.currentFilterIndex]? = some f) :
    let c := coverFit v.videoWidth v.videoHeight s.width s.height
    let t := s.ctx.cur.transform
    (render s).thrown = none ∧
    (render s).state.ctx.painted =
      s.ctx.painted ++
      [ .clearRect (s.ctx.toSurface 0 0 s.width s.height),
        .drawImage
          (if s.facingMode = .user then
            { xa := t.applyX (s.width + c.startX + c.drawW),
              xb := t.applyX (s.width + c.startX),
              ya := t.applyY c.startY, yb := t.applyY (c.startY + c.drawH) }
           else s.ctx.toSurface c.startX c.startY c.drawW c.drawH)
          f.filter ] ++
      (if f.overlay = some .vignette then
        [ .fillRect (s.ctx.toSurface 0 0 s.width s.height)
            (.radialGradient (s.width / 2) (s.height / 2) (s.height / 3)
              (s.width / 2) (s.height / 2) s.height
              [(0, "rgba(0,0,0,0)"), (1, "rgba(0,0,0,0.6)")])
            "none" ]
       else []) := by
  intro c t
  have hr2 : 2 ≤ v.readyState := hr
  by_cases hu : s.facingMode = .user <;> by_cases ho : f.overlay = some .vignette
  all_goals
    simp [render, hv, hr2, hf, hu, ho, Result.ok, Ctx.clearRect, Ctx.setFilter, Ctx.save,
      Ctx.translate, Ctx.scale, Ctx.drawImage, Ctx.restore, Ctx.toSurface, Ctx.setFillStyle,
      Ctx.fillRect, Transform.translate, Transform.scale, Transform.applyX, Transform.applyY,
      c, t]
  all_goals try (constructor <;> ring)

/-- C8, evaluated: with the rear camera on a 1920 x 1080 surface and the preset Dreamy
(index 6, overlay bloom) active, `render` paints the clear and the image and nothing
else, and leaves the preset's filter in force; with Retro (index 1, overlay vignette)
it also fills the whole surface with the filter off. -/
theorem render_bloom_no_overlay :
    (filters[dreamyPage.currentFilterIndex]?).map FilterPreset.overlay = some (some .bloom) ∧
    (render dreamyPage).thrown = none ∧
    (render dreamyPage).state.ctx.painted =
      [ .clearRect { xa := 0, xb := 1920, ya := 0, yb := 1080 },
        .drawImage { xa := 0, xb := 1920, ya := 0, yb := 1080 }
          "contrast(0.9) brightness(1.2) saturate(1.5)" ] ∧
    (render dreamyPage).state.ctx.cur.filter = "contrast(0.9) brightness(1.2) saturate(1.5)" ∧
    (render retroPage).state.ctx.painted =
      [ .clearRect { xa := 0, xb := 1920, ya := 0, yb := 1080 },
        .drawImage { xa := 0, xb := 1920, ya := 0, yb := 1080 }
          "sepia(0.4) contrast(1.2) brightness(0.9) saturate(0.8)",
        .fillRect { xa := 0, xb := 1920, ya := 0, yb := 1080 }
          (.radialGradient 960 540 360 960 540 1080
            [(0, "rgba(0,0,0,0)"), (1, "rgba(0,0,0,0.6)")])
          "none" ] := by
  have hd : dreamyPage = { rearPage with currentFilterIndex := 6 } := by
    simp [dreamyPage, step, filterClick, renderFilterList_getElem?]
  have hrt : retroPage = { rearPage with currentFilterIndex := 1 } := by
    simp [retroPage, step, filterClick, renderFilterList_getElem?]
  refine ⟨?_, ?_, ?_, ?_, ?_⟩
  · rw [hd]; rfl
  · rw [hd]; rfl
  · rw [hd]
    simp [rearPage, step, toggleCameraClick, frontPage, init, startCamera, handleResize,
      state0, grantedEnv, readyVideo,
      render, coverFit, filters, Result.ok, Ctx.fresh, Ctx.clearRect, Ctx.setFilter, Ctx.save,
      Ctx.translate, Ctx.scale, Ctx.drawImage, Ctx.restore, Ctx.toSurface, Transform.identity,
      Transform.translate, Transform.scale, Transform.applyX, Transform.applyY]
    norm_num
  · rw [hd]
    simp [rearPage, step, toggleCameraClick, frontPage, init, startCamera, handleResize,
      state0, grantedEnv, readyVideo,
      render, coverFit, filters, Result.ok, Ctx.fresh, Ctx.clearRect, Ctx.setFilter, Ctx.save,
      Ctx.translate, Ctx.scale, Ctx.drawImage, Ctx.restore, Ctx.toSurface, Transform.identity,
      Transform.translate, Transform.scale, Transform.applyX, Transform.applyY]
  · rw [hrt]
    simp [rearPage, step, toggleCameraClick, frontPage, init, startCamera, handleResize,
      state0, grantedEnv, readyVideo,
      render, coverFit, filters, Result.ok, Ctx.fresh, Ctx.clearRect, Ctx.setFilter, Ctx.save,
      Ctx.translate, Ctx.scale, Ctx.drawImage, Ctx.restore, Ctx.toSurface, Transform.identity,
      Transform.translate, Transform.scale, Transform.applyX, Transform.applyY,
      Ctx.setFillStyle, Ctx.fillRect]
    norm_num

/-- C10, evaluated: the camera is refused, the mode is switched to video and the
shutter is pressed. `startRecording` throws after setting `isRecording`, so the state
has `isRecording` true and no recorder; the next shutter press runs `stopRecording`,
which throws for want of a recorder, and no clip reaches the gallery. -/
theorem shutter_without_stream_sets_isRecording :
    deniedPage.stream = none ∧
    (handleShutter (setMode deniedPage .video) true 0).thrown = some .typeError ∧
    (run deniedPage [.modeClick .video, .shutterClick true 0]).isRecording = true ∧
    (run deniedPage [.modeClick .video, .shutterClick true 0]).mediaRecorder = none ∧
    (handleShutter (run deniedPage [.modeClick .video, .shutterClick true 0]) true 1).thrown =
      some .typeError ∧
    (run deniedPage [.modeClick .video, .shutterClick true 0, .shutterClick true 1,
      .recorderStop 2]).gallery = [] := by
  simp [deniedPage, deniedEnv, init, startCamera, state0, run, step, setMode, handleShutter,
    toggleRecording, startRecording, stopRecording, recorderStopEvent, Result.throw, Result.ok]

end Selfiecam
